import Mathlib

/-!
Verification of the bootstrap/acceptor/dispatch core of `src/ray/raylet/raylet.cc`.

The development shallowly embeds the file's functions:
`GenerateEnumNames` (with its scanning loop made explicit and fuelled),
`Raylet::RegisterGcs` (as a pure function over an environment describing the
GCS client, returning the resulting status together with the trace of external
effects it performed), the three accept handlers `Raylet::HandleAccept`,
`Raylet::HandleAcceptNodeManager`, `Raylet::HandleAcceptObjectManager` (as pure
functions from the accept completion's error code to the connection they build
and whether they re-arm), and the `Raylet::Raylet` constructor (as a trace of
bootstrap steps). Machine `size_t` arithmetic is modelled explicitly modulo
2 ^ 64.
-/

/-- Result of running `GenerateEnumNames`: the finished name table, a fatal
`RAY_CHECK` failure (the "Message Type mismatch!" abort) carrying the table the
check inspected, or divergence of the scanning loop (no null terminator found
within the available fuel). -/
inductive GenResult where
  | ok (names : List String)
  | checkFailed (names : List String)
  | diverged
deriving DecidableEq

/-- Whether a `GenResult` is a successfully built table. -/
def GenResult.isOk : GenResult → Bool
  | GenResult.ok _ => true
  | GenResult.checkFailed _ => false
  | GenResult.diverged => false

/-- Fuelled model of the `while (true)` scanning loop in `GenerateEnumNames`:
starting at index `i`, read `enum_names_ptr[i]` until a null entry is found,
collecting the non-null names in order. Returns `none` when the fuel runs out
before a null entry is seen (the C++ loop would keep reading). -/
def collectNamesFuel (enum_names_ptr : Nat → Option String) : Nat → Nat → Option (List String)
  | 0, _ => none
  | fuel + 1, i =>
    match enum_names_ptr i with
    | none => some []
    | some name => (collectNamesFuel enum_names_ptr fuel (i + 1)).map (fun rest => name :: rest)

/-- Value of a C++ `static_cast<size_t>` applied to a (possibly negative)
integer: reduction modulo `2 ^ 64`. -/
def sizeT (x : Int) : Nat := (x % (2 ^ 64 : Int)).toNat

/-- Model of `GenerateEnumNames`: push `start_index` copies of the placeholder
"EmptyMessageType", append every name of the null-terminated raw array in
order, then run `RAY_CHECK(static_cast<size_t>(end_index) == enum_names.size() - 1)`;
the subtraction `enum_names.size() - 1` is `size_t` arithmetic, modelled modulo
`2 ^ 64`. -/
def GenerateEnumNames (enum_names_ptr : Nat → Option String) (start_index end_index : Int)
    (fuel : Nat) : GenResult :=
  let placeholders := List.replicate start_index.toNat "EmptyMessageType"
  match collectNamesFuel enum_names_ptr fuel 0 with
  | none => GenResult.diverged
  | some raw =>
    let enum_names := placeholders ++ raw
    if sizeT end_index = (enum_names.length + 2 ^ 64 - 1) % 2 ^ 64 then GenResult.ok enum_names
    else GenResult.checkFailed enum_names

/-- The scanning loop, run with enough fuel on an array whose first null entry
sits at index `i + k`, returns exactly the `k` names found at indices
`i, i + 1, …, i + k - 1`, in order. -/
theorem collectNamesFuel_eq_of_terminated (f : Nat → Option String) (k : Nat) :
    ∀ (i fuel : Nat), f (i + k) = none → (∀ j, j < k → f (i + j) ≠ none) → k < fuel →
      collectNamesFuel f fuel i = some ((List.range k).map (fun j => (f (i + j)).getD "")) := by
  induction k with
  | zero =>
    intro i fuel hnull hfirst hfuel
    cases fuel with
    | zero => omega
    | succ m =>
      simp only [Nat.add_zero] at hnull
      simp [collectNamesFuel, hnull]
  | succ k ih =>
    intro i fuel hnull hfirst hfuel
    cases fuel with
    | zero => omega
    | succ m =>
      have h0 : f i ≠ none := by
        have h := hfirst 0 (Nat.succ_pos k)
        simpa using h
      cases hfi : f i with
      | none => exact absurd hfi h0
      | some s =>
        have hrec := ih (i + 1) m
          (by
            have hik : i + 1 + k = i + (k + 1) := by omega
            rw [hik]; exact hnull)
          (fun j hj => by
            have hij : i + 1 + j = i + (j + 1) := by omega
            rw [hij]; exact hfirst (j + 1) (by omega))
          (by omega)
        simp only [collectNamesFuel, hfi, hrec, Option.map_some']
        congr 1
        rw [List.range_succ_eq_map, List.map_cons, List.map_map]
        congr 1
        · simp [hfi]
        · apply List.map_congr_left
          intro j hj
          have hij : i + 1 + j = i + (j + 1) := by omega
          simp [Function.comp, hij]

/-- Indexing a replicate-prefixed list inside the replicated prefix yields the
replicated element. -/
theorem getElem_replicate_append (a : String) (t : List String) :
    ∀ (c i : Nat), i < c → (List.replicate c a ++ t)[i]? = some a := by
  intro c
  induction c with
  | zero => intro i h; omega
  | succ c ih =>
    intro i h
    cases i with
    | zero => simp [List.replicate_succ]
    | succ i =>
      rw [List.replicate_succ, List.cons_append]
      simpa using ih i (by omega)

/-- C10: `GenerateEnumNames` terminates on every raw name array that is
null-terminated (its first null entry sits at some finite index `k`), and the
number of non-placeholder entries appended by the scanning loop equals `k`, the
index of the first null entry. -/
theorem generateEnumNames_terminates (f : Nat → Option String) (start_index end_index : Int)
    (fuel k : Nat) (hnull : f k = none) (hfirst : ∀ j, j < k → f j ≠ none) (hfuel : k < fuel) :
    GenerateEnumNames f start_index end_index fuel ≠ GenResult.diverged ∧
    ∃ raw, collectNamesFuel f fuel 0 = some raw ∧ raw.length = k := by
  have h := collectNamesFuel_eq_of_terminated f k 0 fuel (by simpa using hnull)
    (fun j hj => by simpa using hfirst j hj) hfuel
  constructor
  · simp only [GenerateEnumNames, h]
    split <;> simp
  · exact ⟨_, h, by simp⟩

/-- C10 witness: on a concrete array with two names and the null terminator at
index 2, the generator terminates and the loop appends exactly 2 names. -/
def sampleNames : Nat → Option String :=
  fun i => if i = 0 then some "TaskA" else if i = 1 then some "TaskB" else none

theorem generateEnumNames_terminates_witness :
    GenerateEnumNames sampleNames 0 1 5 ≠ GenResult.diverged ∧
    ∃ raw, collectNamesFuel sampleNames 5 0 = some raw ∧ raw.length = 2 :=
  generateEnumNames_terminates sampleNames 0 1 5 2 (by decide) (by decide) (by decide)

/-- C1: on a null-terminated raw array whose first null entry is at index `k`,
`GenerateEnumNames` builds exactly `start_index` placeholder entries followed by
the `k` raw names in order; it returns that table when the `size_t` comparison
`end_index == size - 1` holds and otherwise fails the fatal `RAY_CHECK`, so a
table whose length disagrees with the declared range never passes silently. -/
theorem generateEnumNames_emits_and_asserts (f : Nat → Option String)
    (start_index end_index : Int) (fuel k : Nat)
    (hnull : f k = none) (hfirst : ∀ j, j < k → f j ≠ none) (hfuel : k < fuel) :
    (sizeT end_index = (start_index.toNat + k + 2 ^ 64 - 1) % 2 ^ 64 →
      GenerateEnumNames f start_index end_index fuel =
        GenResult.ok (List.replicate start_index.toNat "EmptyMessageType" ++
          (List.range k).map (fun j => (f j).getD ""))) ∧
    (sizeT end_index ≠ (start_index.toNat + k + 2 ^ 64 - 1) % 2 ^ 64 →
      GenerateEnumNames f start_index end_index fuel =
        GenResult.checkFailed (List.replicate start_index.toNat "EmptyMessageType" ++
          (List.range k).map (fun j => (f j).getD ""))) := by
  have h := collectNamesFuel_eq_of_terminated f k 0 fuel (by simpa using hnull)
    (fun j hj => by simpa using hfirst j hj) hfuel
  simp only [Nat.zero_add] at h
  constructor
  · intro hc
    simp only [GenerateEnumNames, h]
    rw [if_pos]
    simpa using hc
  · intro hc
    simp only [GenerateEnumNames, h]
    rw [if_neg]
    simpa using hc

theorem generateEnumNames_emits_and_asserts_witness :
    GenerateEnumNames sampleNames 1 2 10 =
      GenResult.ok (List.replicate (1 : Int).toNat "EmptyMessageType" ++
        (List.range 2).map (fun j => (sampleNames j).getD "")) :=
  (generateEnumNames_emits_and_asserts sampleNames 1 2 10 2 (by decide) (by decide)
    (by decide)).1 (by decide)

/-- C2: a table that `GenerateEnumNames` actually returned (so the size
assertion passed) holds the placeholder sentinel "EmptyMessageType" at every
index in `[0, start_index)`, and every integer index in `[0, end_index]` is in
bounds, so indexing the table there never fails. The declared bound
`end_index` is a C++ `int` cast from the enumeration, hence within `int`
range and non-negative. -/
theorem generateEnumNames_table_indexable (f : Nat → Option String)
    (start_index end_index : Int) (fuel : Nat) (names : List String)
    (hok : GenerateEnumNames f start_index end_index fuel = GenResult.ok names)
    (he0 : 0 ≤ end_index) (he1 : end_index < 2 ^ 31) :
    (∀ i : Nat, i < start_index.toNat → names[i]? = some "EmptyMessageType") ∧
    (∀ i : Int, 0 ≤ i → i ≤ end_index → i.toNat < names.length) := by
  unfold GenerateEnumNames at hok
  cases hcol : collectNamesFuel f fuel 0 with
  | none => rw [hcol] at hok; simp at hok
  | some raw =>
    rw [hcol] at hok
    simp only [] at hok
    split at hok
    case isTrue hc =>
      have hnames : names = List.replicate start_index.toNat "EmptyMessageType" ++ raw := by
        cases hok; rfl
      subst hnames
      have hse : sizeT end_index = end_index.toNat := by
        unfold sizeT
        rw [Int.emod_eq_of_lt he0 (by
          have hp : (2 : Int) ^ 31 ≤ (2 : Int) ^ 64 := by norm_num
          omega)]
      rw [hse] at hc
      constructor
      · intro i hi
        exact getElem_replicate_append _ _ _ _ hi
      · intro i hi0 hie
        have h64 : (2 : Nat) ^ 64 = 18446744073709551616 := by norm_num
        have h31 : (2 : Int) ^ 31 = 2147483648 := by norm_num
        rw [h64] at hc
        rw [h31] at he1
        omega
    case isFalse hc => simp at hok

theorem generateEnumNames_table_indexable_witness :
    (∀ i : Nat, i < (1 : Int).toNat →
      (["EmptyMessageType", "TaskA", "TaskB"] : List String)[i]? =
        some "EmptyMessageType") ∧
    (∀ i : Int, 0 ≤ i → i ≤ 2 →
      i.toNat < (["EmptyMessageType", "TaskA", "TaskB"] : List String).length) :=
  generateEnumNames_table_indexable sampleNames 1 2 10
    ["EmptyMessageType", "TaskA", "TaskB"] (by decide) (by decide) (by decide)

/-- Model of `ray::Status`: either success or an error carrying a message. -/
inductive Status where
  | ok
  | error (msg : String)
deriving DecidableEq

/-- Whether a status is success (`status.ok()` in the source). -/
def Status.isOk : Status → Bool
  | Status.ok => true
  | Status.error _ => false

/-- Fields of `ClientTableDataT` touched by `Raylet::RegisterGcs`. The resource
capacities are C++ doubles on which this code performs no arithmetic, only
copying; they are carried here as integers. -/
structure ClientTableData where
  node_manager_address : String
  raylet_socket_name : String
  object_store_socket_name : String
  object_manager_port : Nat
  node_manager_port : Nat
  resources_total_label : List String
  resources_total_capacity : List Int
deriving DecidableEq

/-- Model of a bound TCP acceptor: the port requested at construction and the
port the OS assigned. `local_endpoint().port()` returns the requested port when
it was nonzero, and the OS-assigned port when port 0 ("assign any") was
requested. -/
structure TcpAcceptor where
  requestedPort : Nat
  osAssignedPort : Nat
deriving DecidableEq

/-- The actual bound local-endpoint port of the acceptor
(`acceptor.local_endpoint().port()`). -/
def TcpAcceptor.localEndpointPort (a : TcpAcceptor) : Nat :=
  if a.requestedPort = 0 then a.osAssignedPort else a.requestedPort

/-- The two network acceptors of the `Raylet` object that `RegisterGcs`
reads its ports from. -/
structure RayletState where
  object_manager_acceptor : TcpAcceptor
  node_manager_acceptor : TcpAcceptor
deriving DecidableEq

/-- Model of `NodeManagerConfig`: the requested node-manager port and the
resource map `resource_config.GetResourceMap()` as a name/capacity association
list in iteration order. -/
structure NodeManagerConfig where
  node_manager_port : Nat
  resource_config : List (String × Int)
deriving DecidableEq

/-- Environment describing the external collaborators of `RegisterGcs`: the
result of `gcs_client_->Attach`, the descriptor template returned by
`client_table().GetLocalClient()`, the result of `client_table().Connect` as a
function of the descriptor published, and the result of
`node_manager_.RegisterGcs()`. -/
structure GcsEnv where
  attachStatus : Status
  localClient : ClientTableData
  connectStatus : ClientTableData → Status
  nodeManagerRegisterGcsStatus : Status

/-- Externally visible effects of `RegisterGcs`, in the order performed. -/
inductive GcsEvent where
  | attach
  | connect (info : ClientTableData)
  | nodeManagerRegisterGcs
deriving DecidableEq

/-- The resource loop of `RegisterGcs`: for each name/capacity pair of the
resource map in iteration order, push the name onto `resources_total_label` and
the capacity onto `resources_total_capacity`. -/
def addResources (info : ClientTableData) (resourceMap : List (String × Int)) :
    ClientTableData :=
  resourceMap.foldl (fun acc resource_pair =>
    { acc with
      resources_total_label := acc.resources_total_label ++ [resource_pair.1]
      resources_total_capacity := acc.resources_total_capacity ++ [resource_pair.2] }) info

/-- Descriptor assembly of `RegisterGcs`: take the local descriptor template,
overwrite the address, socket names and the two acceptors' actual bound ports,
then append the resource map. -/
def fillClientInfo (template : ClientTableData)
    (node_ip_address raylet_socket_name object_store_socket_name : String)
    (object_manager_acceptor node_manager_acceptor : TcpAcceptor)
    (resourceMap : List (String × Int)) : ClientTableData :=
  addResources
    { template with
      node_manager_address := node_ip_address
      raylet_socket_name := raylet_socket_name
      object_store_socket_name := object_store_socket_name
      object_manager_port := object_manager_acceptor.localEndpointPort
      node_manager_port := node_manager_acceptor.localEndpointPort }
    resourceMap

/-- The descriptor `RegisterGcs` publishes when it reaches the publish step. -/
def publishedInfo (env : GcsEnv) (self : RayletState)
    (node_ip_address raylet_socket_name object_store_socket_name : String)
    (node_manager_config : NodeManagerConfig) : ClientTableData :=
  fillClientInfo env.localClient node_ip_address raylet_socket_name object_store_socket_name
    self.object_manager_acceptor self.node_manager_acceptor
    node_manager_config.resource_config

/-- Model of `Raylet::RegisterGcs`: attach the GCS client
(`RAY_RETURN_NOT_OK` short-circuits on failure), assemble the descriptor, publish
it via `client_table().Connect` (short-circuits on failure), then call
`node_manager_.RegisterGcs()` (short-circuits on failure), returning `Status::OK`
together with the trace of effects performed. -/
def RegisterGcs (env : GcsEnv) (self : RayletState)
    (node_ip_address raylet_socket_name object_store_socket_name : String)
    (node_manager_config : NodeManagerConfig) : Status × List GcsEvent :=
  if ¬ env.attachStatus.isOk then (env.attachStatus, [GcsEvent.attach])
  else
    let client_info := publishedInfo env self node_ip_address raylet_socket_name
      object_store_socket_name node_manager_config
    if ¬ (env.connectStatus client_info).isOk then
      (env.connectStatus client_info, [GcsEvent.attach, GcsEvent.connect client_info])
    else if ¬ env.nodeManagerRegisterGcsStatus.isOk then
      (env.nodeManagerRegisterGcsStatus,
        [GcsEvent.attach, GcsEvent.connect client_info, GcsEvent.nodeManagerRegisterGcs])
    else
      (Status.ok,
        [GcsEvent.attach, GcsEvent.connect client_info, GcsEvent.nodeManagerRegisterGcs])

/-- Model of `Raylet::RegisterPeriodicTimer`: constructs a 100 ms deadline
timer, arms no repeating callback on it, and returns `Status::OK`. -/
def RegisterPeriodicTimer : Status := Status.ok

/-- The field-by-field effect of the resource loop: address, socket names and
ports are untouched; the label and capacity lists each get the map's first and
second components appended, in iteration order. -/
theorem addResources_fields (m : List (String × Int)) :
    ∀ info : ClientTableData,
      (addResources info m).node_manager_address = info.node_manager_address ∧
      (addResources info m).raylet_socket_name = info.raylet_socket_name ∧
      (addResources info m).object_store_socket_name = info.object_store_socket_name ∧
      (addResources info m).object_manager_port = info.object_manager_port ∧
      (addResources info m).node_manager_port = info.node_manager_port ∧
      (addResources info m).resources_total_label =
        info.resources_total_label ++ m.map Prod.fst ∧
      (addResources info m).resources_total_capacity =
        info.resources_total_capacity ++ m.map Prod.snd := by
  induction m with
  | nil => intro info; simp [addResources]
  | cons p m ih =>
    intro info
    have h := ih { info with
      resources_total_label := info.resources_total_label ++ [p.1]
      resources_total_capacity := info.resources_total_capacity ++ [p.2] }
    simp only [addResources, List.foldl_cons] at h ⊢
    simpa using h

/-- Any descriptor carried by a `connect` event in the trace of `RegisterGcs`
is the assembled descriptor `publishedInfo`. -/
theorem registerGcs_connect_mem (env : GcsEnv) (self : RayletState)
    (node_ip_address raylet_socket_name object_store_socket_name : String)
    (cfg : NodeManagerConfig) (info : ClientTableData)
    (hmem : GcsEvent.connect info ∈
      (RegisterGcs env self node_ip_address raylet_socket_name object_store_socket_name
        cfg).2) :
    info = publishedInfo env self node_ip_address raylet_socket_name
      object_store_socket_name cfg := by
  by_cases h1 : env.attachStatus.isOk = true
  · by_cases h2 : (env.connectStatus (publishedInfo env self node_ip_address
        raylet_socket_name object_store_socket_name cfg)).isOk = true
    · by_cases h3 : env.nodeManagerRegisterGcsStatus.isOk = true
      · simpa [RegisterGcs, h1, h2, h3] using hmem
      · simpa [RegisterGcs, h1, h2, h3] using hmem
    · simpa [RegisterGcs, h1, h2] using hmem
  · simp [RegisterGcs, h1] at hmem

/-- Port and resource fields of the assembled descriptor. -/
theorem publishedInfo_fields (env : GcsEnv) (self : RayletState)
    (node_ip_address raylet_socket_name object_store_socket_name : String)
    (cfg : NodeManagerConfig) :
    (publishedInfo env self node_ip_address raylet_socket_name object_store_socket_name
        cfg).object_manager_port = self.object_manager_acceptor.localEndpointPort ∧
    (publishedInfo env self node_ip_address raylet_socket_name object_store_socket_name
        cfg).node_manager_port = self.node_manager_acceptor.localEndpointPort ∧
    (publishedInfo env self node_ip_address raylet_socket_name object_store_socket_name
        cfg).resources_total_label =
      env.localClient.resources_total_label ++ cfg.resource_config.map Prod.fst ∧
    (publishedInfo env self node_ip_address raylet_socket_name object_store_socket_name
        cfg).resources_total_capacity =
      env.localClient.resources_total_capacity ++ cfg.resource_config.map Prod.snd := by
  unfold publishedInfo fillClientInfo
  obtain ⟨h1, h2, h3, h4, h5, h6, h7⟩ := addResources_fields cfg.resource_config
    { env.localClient with
      node_manager_address := node_ip_address
      raylet_socket_name := raylet_socket_name
      object_store_socket_name := object_store_socket_name
      object_manager_port := self.object_manager_acceptor.localEndpointPort
      node_manager_port := self.node_manager_acceptor.localEndpointPort }
  exact ⟨h4, h5, h6, h7⟩

/-- C3: `RegisterGcs` performs attach, publish, post-registration hook strictly
in that order, each failing step short-circuiting the remainder: a failed attach
publishes nothing, a failed publish never invokes the node-manager hook, and
the failing step's status is the result of the whole operation. -/
theorem registerGcs_short_circuit (env : GcsEnv) (self : RayletState)
    (node_ip_address raylet_socket_name object_store_socket_name : String)
    (cfg : NodeManagerConfig) :
    (env.attachStatus.isOk = false →
      RegisterGcs env self node_ip_address raylet_socket_name object_store_socket_name cfg =
        (env.attachStatus, [GcsEvent.attach])) ∧
    (env.attachStatus.isOk = true →
      (env.connectStatus (publishedInfo env self node_ip_address raylet_socket_name
        object_store_socket_name cfg)).isOk = false →
      RegisterGcs env self node_ip_address raylet_socket_name object_store_socket_name cfg =
        (env.connectStatus (publishedInfo env self node_ip_address raylet_socket_name
          object_store_socket_name cfg),
         [GcsEvent.attach,
          GcsEvent.connect (publishedInfo env self node_ip_address raylet_socket_name
            object_store_socket_name cfg)])) ∧
    (env.attachStatus.isOk = true →
      (env.connectStatus (publishedInfo env self node_ip_address raylet_socket_name
        object_store_socket_name cfg)).isOk = true →
      env.nodeManagerRegisterGcsStatus.isOk = false →
      RegisterGcs env self node_ip_address raylet_socket_name object_store_socket_name cfg =
        (env.nodeManagerRegisterGcsStatus,
         [GcsEvent.attach,
          GcsEvent.connect (publishedInfo env self node_ip_address raylet_socket_name
            object_store_socket_name cfg),
          GcsEvent.nodeManagerRegisterGcs])) ∧
    (env.attachStatus.isOk = true →
      (env.connectStatus (publishedInfo env self node_ip_address raylet_socket_name
        object_store_socket_name cfg)).isOk = true →
      env.nodeManagerRegisterGcsStatus.isOk = true →
      RegisterGcs env self node_ip_address raylet_socket_name object_store_socket_name cfg =
        (Status.ok,
         [GcsEvent.attach,
          GcsEvent.connect (publishedInfo env self node_ip_address raylet_socket_name
            object_store_socket_name cfg),
          GcsEvent.nodeManagerRegisterGcs])) := by
  refine ⟨?_, ?_, ?_, ?_⟩
  · intro h1
    simp [RegisterGcs, h1]
  · intro h1 h2
    simp [RegisterGcs, h1, h2]
  · intro h1 h2 h3
    simp [RegisterGcs, h1, h2, h3]
  · intro h1 h2 h3
    simp [RegisterGcs, h1, h2, h3]

/-- Samples used by the witnesses below. -/
def sampleAcceptorAssigned : TcpAcceptor := { requestedPort := 0, osAssignedPort := 41000 }

def sampleAcceptorFixed : TcpAcceptor := { requestedPort := 8076, osAssignedPort := 0 }

def sampleRaylet : RayletState :=
  { object_manager_acceptor := sampleAcceptorAssigned
    node_manager_acceptor := sampleAcceptorFixed }

def emptyClientInfo : ClientTableData :=
  { node_manager_address := ""
    raylet_socket_name := ""
    object_store_socket_name := ""
    object_manager_port := 0
    node_manager_port := 0
    resources_total_label := []
    resources_total_capacity := [] }

def sampleConfig : NodeManagerConfig :=
  { node_manager_port := 8076, resource_config := [("CPU", 4)] }

def attachFailEnv : GcsEnv :=
  { attachStatus := Status.error "attach failed"
    localClient := emptyClientInfo
    connectStatus := fun _ => Status.ok
    nodeManagerRegisterGcsStatus := Status.ok }

def allOkEnv : GcsEnv :=
  { attachStatus := Status.ok
    localClient := emptyClientInfo
    connectStatus := fun _ => Status.ok
    nodeManagerRegisterGcsStatus := Status.ok }

theorem registerGcs_short_circuit_witness :
    RegisterGcs attachFailEnv sampleRaylet "10.0.0.1" "/tmp/raylet" "/tmp/plasma"
        sampleConfig =
      (Status.error "attach failed", [GcsEvent.attach]) :=
  (registerGcs_short_circuit attachFailEnv sampleRaylet "10.0.0.1" "/tmp/raylet"
    "/tmp/plasma" sampleConfig).1 (by decide)

/-- C4: every descriptor published by `RegisterGcs` reports, as node-manager
and object-manager ports, exactly the actual bound local-endpoint ports of the
corresponding acceptors; in particular, when port 0 was requested at
construction the OS-assigned port is reported. -/
theorem registerGcs_reports_bound_ports (env : GcsEnv) (self : RayletState)
    (node_ip_address raylet_socket_name object_store_socket_name : String)
    (cfg : NodeManagerConfig) (info : ClientTableData)
    (hmem : GcsEvent.connect info ∈
      (RegisterGcs env self node_ip_address raylet_socket_name object_store_socket_name
        cfg).2) :
    info.object_manager_port = self.object_manager_acceptor.localEndpointPort ∧
    info.node_manager_port = self.node_manager_acceptor.localEndpointPort ∧
    (self.object_manager_acceptor.requestedPort = 0 →
      info.object_manager_port = self.object_manager_acceptor.osAssignedPort) ∧
    (self.node_manager_acceptor.requestedPort = 0 →
      info.node_manager_port = self.node_manager_acceptor.osAssignedPort) := by
  have heq := registerGcs_connect_mem env self node_ip_address raylet_socket_name
    object_store_socket_name cfg info hmem
  have hp := publishedInfo_fields env self node_ip_address raylet_socket_name
    object_store_socket_name cfg
  rw [heq]
  refine ⟨hp.1, hp.2.1, ?_, ?_⟩
  · intro h0
    rw [hp.1]
    unfold TcpAcceptor.localEndpointPort
    rw [if_pos h0]
  · intro h0
    rw [hp.2.1]
    unfold TcpAcceptor.localEndpointPort
    rw [if_pos h0]

theorem registerGcs_reports_bound_ports_witness :
    (publishedInfo allOkEnv sampleRaylet "10.0.0.1" "/tmp/raylet" "/tmp/plasma"
        sampleConfig).object_manager_port =
      sampleRaylet.object_manager_acceptor.localEndpointPort ∧
    (publishedInfo allOkEnv sampleRaylet "10.0.0.1" "/tmp/raylet" "/tmp/plasma"
        sampleConfig).node_manager_port =
      sampleRaylet.node_manager_acceptor.localEndpointPort ∧
    (sampleRaylet.object_manager_acceptor.requestedPort = 0 →
      (publishedInfo allOkEnv sampleRaylet "10.0.0.1" "/tmp/raylet" "/tmp/plasma"
          sampleConfig).object_manager_port =
        sampleRaylet.object_manager_acceptor.osAssignedPort) ∧
    (sampleRaylet.node_manager_acceptor.requestedPort = 0 →
      (publishedInfo allOkEnv sampleRaylet "10.0.0.1" "/tmp/raylet" "/tmp/plasma"
          sampleConfig).node_manager_port =
        sampleRaylet.node_manager_acceptor.osAssignedPort) :=
  registerGcs_reports_bound_ports allOkEnv sampleRaylet "10.0.0.1" "/tmp/raylet"
    "/tmp/plasma" sampleConfig
    (publishedInfo allOkEnv sampleRaylet "10.0.0.1" "/tmp/raylet" "/tmp/plasma"
      sampleConfig)
    (by decide)

/-- C5: starting from a descriptor template with empty resource lists, the
resource loop of `RegisterGcs` fills the published descriptor's name and
capacity lists as parallel, index-aligned sequences: the name of the i-th
map pair lands at index i of `resources_total_label` and its capacity at index
i of `resources_total_capacity`, and both lists have equal length. -/
theorem registerGcs_parallel_resources (env : GcsEnv) (self : RayletState)
    (node_ip_address raylet_socket_name object_store_socket_name : String)
    (cfg : NodeManagerConfig) (info : ClientTableData)
    (hlab : env.localClient.resources_total_label = [])
    (hcap : env.localClient.resources_total_capacity = [])
    (hmem : GcsEvent.connect info ∈
      (RegisterGcs env self node_ip_address raylet_socket_name object_store_socket_name
        cfg).2) :
    info.resources_total_label = cfg.resource_config.map Prod.fst ∧
    info.resources_total_capacity = cfg.resource_config.map Prod.snd ∧
    info.resources_total_label.length = info.resources_total_capacity.length ∧
    ∀ i : Nat,
      info.resources_total_label[i]? = (cfg.resource_config[i]?).map Prod.fst ∧
      info.resources_total_capacity[i]? = (cfg.resource_config[i]?).map Prod.snd := by
  have heq := registerGcs_connect_mem env self node_ip_address raylet_socket_name
    object_store_socket_name cfg info hmem
  have hp := publishedInfo_fields env self node_ip_address raylet_socket_name
    object_store_socket_name cfg
  have hl : info.resources_total_label = cfg.resource_config.map Prod.fst := by
    rw [heq, hp.2.2.1, hlab, List.nil_append]
  have hc : info.resources_total_capacity = cfg.resource_config.map Prod.snd := by
    rw [heq, hp.2.2.2, hcap, List.nil_append]
  refine ⟨hl, hc, ?_, ?_⟩
  · rw [hl, hc]
    simp
  · intro i
    rw [hl, hc]
    simp [List.getElem?_map]

theorem registerGcs_parallel_resources_witness :
    (publishedInfo allOkEnv sampleRaylet "10.0.0.1" "/tmp/raylet" "/tmp/plasma"
        sampleConfig).resources_total_label =
      sampleConfig.resource_config.map Prod.fst ∧
    (publishedInfo allOkEnv sampleRaylet "10.0.0.1" "/tmp/raylet" "/tmp/plasma"
        sampleConfig).resources_total_capacity =
      sampleConfig.resource_config.map Prod.snd ∧
    (publishedInfo allOkEnv sampleRaylet "10.0.0.1" "/tmp/raylet" "/tmp/plasma"
        sampleConfig).resources_total_label.length =
      (publishedInfo allOkEnv sampleRaylet "10.0.0.1" "/tmp/raylet" "/tmp/plasma"
        sampleConfig).resources_total_capacity.length ∧
    ∀ i : Nat,
      (publishedInfo allOkEnv sampleRaylet "10.0.0.1" "/tmp/raylet" "/tmp/plasma"
          sampleConfig).resources_total_label[i]? =
        (sampleConfig.resource_config[i]?).map Prod.fst ∧
      (publishedInfo allOkEnv sampleRaylet "10.0.0.1" "/tmp/raylet" "/tmp/plasma"
          sampleConfig).resources_total_capacity[i]? =
        (sampleConfig.resource_config[i]?).map Prod.snd :=
  registerGcs_parallel_resources allOkEnv sampleRaylet "10.0.0.1" "/tmp/raylet"
    "/tmp/plasma" sampleConfig
    (publishedInfo allOkEnv sampleRaylet "10.0.0.1" "/tmp/raylet" "/tmp/plasma"
      sampleConfig)
    (by decide) (by decide) (by decide)

/-- The subsystem entry points a connection's two callbacks can route to. -/
inductive CallbackTarget where
  | nodeManagerProcessNewClient
  | nodeManagerProcessNewNodeManager
  | nodeManagerProcessClientMessage
  | nodeManagerProcessNodeManagerMessage
  | objectManagerProcessNewClient
  | objectManagerProcessClientMessage
deriving DecidableEq

/-- Arguments passed to `ClientConnection::Create` by an accept handler: the
establishment callback's route, the message callback's route, the role label,
the protocol name table, and the disconnect sentinel tag. -/
structure ConnectionSpec where
  clientHandler : CallbackTarget
  messageHandler : CallbackTarget
  roleLabel : String
  nameTable : List String
  disconnectTag : Int
deriving DecidableEq

/-- Observable outcome of one accept-handler invocation: the connection it
created (if any) and whether it re-issued the asynchronous accept. -/
structure AcceptStep where
  connection : Option ConnectionSpec
  rearmed : Bool
deriving DecidableEq

/-- The two static protocol name tables and the two disconnect sentinel tags
available to the handlers: `node_manager_message_enum` /
`protocol::MessageType::DisconnectClient` for the node-manager family and
`object_manager_message_enum` /
`object_manager::protocol::MessageType::DisconnectClient` for the
object-transfer family. -/
structure RayletTables where
  node_manager_message_enum : List String
  object_manager_message_enum : List String
  nodeManagerDisconnectTag : Int
  objectManagerDisconnectTag : Int
deriving DecidableEq

/-- Model of `Raylet::HandleAcceptNodeManager`: on a zero (success) error code,
create a TCP connection routing to `node_manager_.ProcessNewNodeManager` /
`ProcessNodeManagerMessage` with the node-manager name table and disconnect
tag; on a nonzero error code create nothing; re-arm unconditionally via
`DoAcceptNodeManager`. -/
def HandleAcceptNodeManager (t : RayletTables) (error : Nat) : AcceptStep :=
  { connection :=
      if error = 0 then
        some
          { clientHandler := CallbackTarget.nodeManagerProcessNewNodeManager
            messageHandler := CallbackTarget.nodeManagerProcessNodeManagerMessage
            roleLabel := "node manager"
            nameTable := t.node_manager_message_enum
            disconnectTag := t.nodeManagerDisconnectTag }
      else none
    rearmed := true }

/-- Model of `Raylet::HandleAcceptObjectManager`: create a TCP connection
routing to `object_manager_.ProcessNewClient` / `ProcessClientMessage` with the
object-manager name table and disconnect tag, without inspecting the error
code, then re-arm via `DoAcceptObjectManager`. -/
def HandleAcceptObjectManager (t : RayletTables) (error : Nat) : AcceptStep :=
  { connection :=
      some
        { clientHandler := CallbackTarget.objectManagerProcessNewClient
          messageHandler := CallbackTarget.objectManagerProcessClientMessage
          roleLabel := "object manager"
          nameTable := t.object_manager_message_enum
          disconnectTag := t.objectManagerDisconnectTag }
    rearmed := true }

/-- Model of `Raylet::HandleAccept` (local channel): on a zero (success) error
code, create a local connection routing to `node_manager_.ProcessNewClient` /
`ProcessClientMessage` with the node-manager name table and disconnect tag; on
a nonzero error code create nothing; re-arm unconditionally via `DoAccept`. -/
def HandleAccept (t : RayletTables) (error : Nat) : AcceptStep :=
  { connection :=
      if error = 0 then
        some
          { clientHandler := CallbackTarget.nodeManagerProcessNewClient
            messageHandler := CallbackTarget.nodeManagerProcessClientMessage
            roleLabel := "worker"
            nameTable := t.node_manager_message_enum
            disconnectTag := t.nodeManagerDisconnectTag }
      else none
    rearmed := true }

/-- C6: all three accept handlers re-issue the asynchronous accept on every
completion outcome, success (error code 0) or transport accept error alike, so
no accept error ever stops an acceptor from serving subsequent connections. -/
theorem accept_handlers_always_rearm (t : RayletTables) (error : Nat) :
    (HandleAccept t error).rearmed = true ∧
    (HandleAcceptNodeManager t error).rearmed = true ∧
    (HandleAcceptObjectManager t error).rearmed = true :=
  ⟨rfl, rfl, rfl⟩

/-- C7: on accept success the local-channel handler wires
`ProcessNewClient` / `ProcessClientMessage` and the node-manager network
handler wires `ProcessNewNodeManager` / `ProcessNodeManagerMessage`, both with
the node-manager protocol family's name table and disconnect tag; on accept
failure neither constructs a connection. -/
theorem local_and_node_manager_accept_wiring (t : RayletTables) (error : Nat) :
    (error = 0 →
      HandleAccept t error =
        { connection :=
            some
              { clientHandler := CallbackTarget.nodeManagerProcessNewClient
                messageHandler := CallbackTarget.nodeManagerProcessClientMessage
                roleLabel := "worker"
                nameTable := t.node_manager_message_enum
                disconnectTag := t.nodeManagerDisconnectTag }
          rearmed := true } ∧
      HandleAcceptNodeManager t error =
        { connection :=
            some
              { clientHandler := CallbackTarget.nodeManagerProcessNewNodeManager
                messageHandler := CallbackTarget.nodeManagerProcessNodeManagerMessage
                roleLabel := "node manager"
                nameTable := t.node_manager_message_enum
                disconnectTag := t.nodeManagerDisconnectTag }
          rearmed := true }) ∧
    (error ≠ 0 →
      (HandleAccept t error).connection = none ∧
      (HandleAcceptNodeManager t error).connection = none) := by
  constructor
  · intro h0
    constructor
    · simp [HandleAccept, h0]
    · simp [HandleAcceptNodeManager, h0]
  · intro h0
    constructor
    · simp [HandleAccept, h0]
    · simp [HandleAcceptNodeManager, h0]

def sampleTables : RayletTables :=
  { node_manager_message_enum := ["EmptyMessageType", "TaskA", "TaskB"]
    object_manager_message_enum := ["PushRequest", "PullRequest"]
    nodeManagerDisconnectTag := 2
    objectManagerDisconnectTag := 1 }

theorem local_and_node_manager_accept_wiring_witness :
    (HandleAccept sampleTables 0 =
      { connection :=
          some
            { clientHandler := CallbackTarget.nodeManagerProcessNewClient
              messageHandler := CallbackTarget.nodeManagerProcessClientMessage
              roleLabel := "worker"
              nameTable := sampleTables.node_manager_message_enum
              disconnectTag := sampleTables.nodeManagerDisconnectTag }
        rearmed := true } ∧
      HandleAcceptNodeManager sampleTables 0 =
      { connection :=
          some
            { clientHandler := CallbackTarget.nodeManagerProcessNewNodeManager
              messageHandler := CallbackTarget.nodeManagerProcessNodeManagerMessage
              roleLabel := "node manager"
              nameTable := sampleTables.node_manager_message_enum
              disconnectTag := sampleTables.nodeManagerDisconnectTag }
        rearmed := true }) ∧
    ((HandleAccept sampleTables 1).connection = none ∧
      (HandleAcceptNodeManager sampleTables 1).connection = none) :=
  ⟨(local_and_node_manager_accept_wiring sampleTables 0).1 (by decide),
   (local_and_node_manager_accept_wiring sampleTables 1).2 (by decide)⟩

/-- C8: the object-manager accept handler constructs a connection on every
accept completion, including a failing error code: its result does not depend
on the error code at all, and it always wires the object-manager subsystem's
callbacks with the object-transfer name table and disconnect tag. -/
theorem object_manager_accept_unconditional (t : RayletTables) (error : Nat) :
    HandleAcceptObjectManager t error =
      { connection :=
          some
            { clientHandler := CallbackTarget.objectManagerProcessNewClient
              messageHandler := CallbackTarget.objectManagerProcessClientMessage
              roleLabel := "object manager"
              nameTable := t.object_manager_message_enum
              disconnectTag := t.objectManagerDisconnectTag }
        rearmed := true } :=
  rfl

/-- One protocol family as seen by the static table initializers: the generated
raw name array `EnumNamesMessageType()` and the declared `MessageType::MIN` and
`MessageType::MAX` tag values. -/
structure ProtocolFamily where
  enumNames : Nat → Option String
  minTag : Int
  maxTag : Int

/-- Steps of the `Raylet::Raylet` bootstrap, in execution order. Building the
two static name tables precedes the constructor body; a failed table build or a
failed `RAY_CHECK_OK` aborts the process. -/
inductive BootStep where
  | buildNodeManagerTable (r : GenResult)
  | buildObjectManagerTable (r : GenResult)
  | startLocalAccept
  | startObjectManagerAccept
  | startNodeManagerAccept
  | runRegistrar (st : Status)
  | runRegisterPeriodicTimer (st : Status)
  | fatalAbort
deriving DecidableEq

/-- Model of the `Raylet::Raylet` bootstrap sequence: build the two static
protocol name tables (aborting on a table-size check failure), then start the
three accept loops `DoAccept`, `DoAcceptObjectManager`, `DoAcceptNodeManager`,
then run `RegisterGcs` to completion under `RAY_CHECK_OK` (aborting on a
non-ok status), then `RegisterPeriodicTimer` under `RAY_CHECK_OK`. -/
def RayletBootstrap (nm om : ProtocolFamily) (fuel : Nat) (env : GcsEnv)
    (self : RayletState)
    (node_ip_address raylet_socket_name object_store_socket_name : String)
    (cfg : NodeManagerConfig) : List BootStep :=
  let nmTable := GenerateEnumNames nm.enumNames nm.minTag nm.maxTag fuel
  if ¬ nmTable.isOk then [BootStep.buildNodeManagerTable nmTable, BootStep.fatalAbort]
  else
    let omTable := GenerateEnumNames om.enumNames om.minTag om.maxTag fuel
    if ¬ omTable.isOk then
      [BootStep.buildNodeManagerTable nmTable, BootStep.buildObjectManagerTable omTable,
       BootStep.fatalAbort]
    else
      let st := (RegisterGcs env self node_ip_address raylet_socket_name
        object_store_socket_name cfg).1
      [BootStep.buildNodeManagerTable nmTable, BootStep.buildObjectManagerTable omTable,
       BootStep.startLocalAccept, BootStep.startObjectManagerAccept,
       BootStep.startNodeManagerAccept, BootStep.runRegistrar st] ++
      (if ¬ st.isOk then [BootStep.fatalAbort]
       else [BootStep.runRegisterPeriodicTimer RegisterPeriodicTimer])

/-- C9: once both protocol name tables build successfully, the bootstrap trace
is exactly table builds, then the three accept-loop starts (so every accept
loop starts strictly before registration begins), then the Registrar run; a
non-ok Registrar status is followed by the fatal abort, and an ok status by the
(always-ok) periodic-timer registration. -/
theorem raylet_bootstrap_sequence (nm om : ProtocolFamily) (fuel : Nat) (env : GcsEnv)
    (self : RayletState)
    (node_ip_address raylet_socket_name object_store_socket_name : String)
    (cfg : NodeManagerConfig) (nmNames omNames : List String)
    (hnm : GenerateEnumNames nm.enumNames nm.minTag nm.maxTag fuel = GenResult.ok nmNames)
    (hom : GenerateEnumNames om.enumNames om.minTag om.maxTag fuel = GenResult.ok omNames) :
    RayletBootstrap nm om fuel env self node_ip_address raylet_socket_name
        object_store_socket_name cfg =
      [BootStep.buildNodeManagerTable (GenResult.ok nmNames),
       BootStep.buildObjectManagerTable (GenResult.ok omNames),
       BootStep.startLocalAccept, BootStep.startObjectManagerAccept,
       BootStep.startNodeManagerAccept,
       BootStep.runRegistrar (RegisterGcs env self node_ip_address raylet_socket_name
         object_store_socket_name cfg).1] ++
      (if (RegisterGcs env self node_ip_address raylet_socket_name
          object_store_socket_name cfg).1.isOk then
        [BootStep.runRegisterPeriodicTimer Status.ok]
       else [BootStep.fatalAbort]) := by
  unfold RayletBootstrap
  rw [hnm, hom]
  simp only [GenResult.isOk, Bool.not_true, not_true_eq_false, if_neg, if_false,
    Bool.false_eq_true, not_false_eq_true, if_true]
  by_cases hst : (RegisterGcs env self node_ip_address raylet_socket_name
      object_store_socket_name cfg).1.isOk = true
  · simp [hst, RegisterPeriodicTimer]
  · simp [hst]

theorem raylet_bootstrap_sequence_witness :
    RayletBootstrap
        { enumNames := sampleNames, minTag := 1, maxTag := 2 }
        { enumNames := sampleNames, minTag := 0, maxTag := 1 }
        10 attachFailEnv sampleRaylet "10.0.0.1" "/tmp/raylet" "/tmp/plasma"
        sampleConfig =
      [BootStep.buildNodeManagerTable
         (GenResult.ok ["EmptyMessageType", "TaskA", "TaskB"]),
       BootStep.buildObjectManagerTable (GenResult.ok ["TaskA", "TaskB"]),
       BootStep.startLocalAccept, BootStep.startObjectManagerAccept,
       BootStep.startNodeManagerAccept,
       BootStep.runRegistrar (RegisterGcs attachFailEnv sampleRaylet "10.0.0.1"
         "/tmp/raylet" "/tmp/plasma" sampleConfig).1] ++
      (if (RegisterGcs attachFailEnv sampleRaylet "10.0.0.1" "/tmp/raylet" "/tmp/plasma"
          sampleConfig).1.isOk then
        [BootStep.runRegisterPeriodicTimer Status.ok]
       else [BootStep.fatalAbort]) :=
  raylet_bootstrap_sequence
    { enumNames := sampleNames, minTag := 1, maxTag := 2 }
    { enumNames := sampleNames, minTag := 0, maxTag := 1 }
    10 attachFailEnv sampleRaylet "10.0.0.1" "/tmp/raylet" "/tmp/plasma" sampleConfig
    ["EmptyMessageType", "TaskA", "TaskB"] ["TaskA", "TaskB"]
    (by decide) (by decide)
